import Mathlib

/-!
Shallow embedding of the netlog ring log (src/unnamed/part_000: the
functions store_record, next_record, netlog_log_read, netlog_log_llseek,
netlog_log_open and netlog_log_release, together with the global state
log_buf, log_first_seq, log_first_idx, log_next_seq, log_next_idx and
first_read).

Modelling conventions.

Machine integers (u32, u64, size_t, loff_t) are modelled as Nat, except
the llseek return value which is Int so that the negative errno values
of the C code are kept literally.  None of the modelled arithmetic can
overflow for the buffer sizes the driver is built with, and the only C
subtractions performed, LOG_BUF_LEN - log_next_idx and
log_first_idx - log_next_idx, are guarded by the surrounding branch in
the source exactly as in the model, so Nat subtraction agrees with the
unsigned C subtraction on every comparison the branches have made.

The arena log_buf is modelled as the map from a byte offset to the
size_t value most recently stored at exactly that offset: store_record
writes a size_t there either through record->len = record_size or
through the sentinel assignment, and the index logic (next_record) reads
the arena only as a size_t at such offsets.  Payload bytes of a record
other than its leading len field are never read by any index
computation, so they are not tracked; the path bytes copied by memcpy
are kept as a ghost field of the append result instead.  The constant
LOG_BUF_LEN comes from a header that is not part of the sources, so the
capacity is a parameter cap of every definition, fixed per store as the
specification requires.

The line rendering of netlog_log_read (the sprintf cascade over the
record fields) is abstracted by a function renderLen from the decode
offset to the length of the rendered line; no claim depends on the text
itself, only on its length and on which offset is decoded.
-/

set_option maxRecDepth 10000

namespace Netlog

/-- Size of the C type size_t on the x86_64 kernel ABI, in bytes.  The
wraparound sentinel written by store_record is one size_t. -/
def szt : Nat := 8

/-- Size of struct netlog_log on x86_64: len (8) + path_len (8) +
nsec (8) + pid (4) + uid (4) + action (1) + protocol (1) + family (2) +
src_port (4) + dst_port (4) + dst (16) + src (16) = 76 bytes, padded to
the struct alignment 8, hence 80. -/
def netlogLogSize : Nat := 80

/-- LOG_ALIGN is the alignment of struct netlog_log, which is 8 on
x86_64 because of its u64 and size_t members. -/
def logAlign : Nat := 8

/-- INT_MAX of the C int type. -/
def intMax : Nat := 2 ^ 31 - 1

/-- Global ring state of the log: the arena log_buf plus the head and
tail bookkeeping variables of src/unnamed/part_000 lines 36 to 44. -/
structure LogState where
  buf : Nat → Nat
  first_seq : Nat
  first_idx : Nat
  next_seq : Nat
  next_idx : Nat

/-- Initial state: the static variables are zero initialised and
log_buf holds all zero bytes. -/
def initState : LogState :=
  { buf := fun _ => 0, first_seq := 0, first_idx := 0,
    next_seq := 0, next_idx := 0 }

/-- Store a size_t value at offset i of the arena, as the C code does
through a size_t pointer at log_buf + i or through record->len. -/
def bufWrite (f : Nat → Nat) (i v : Nat) : Nat → Nat :=
  fun j => if j = i then v else f j

/-- Path length actually stored by store_record (lines 98 to 104):
strlen of the path, replaced by min (LOG_BUF_LEN >> 4) INT_MAX when it
exceeds LOG_BUF_LEN >> 4 or INT_MAX. -/
def pathLenOf (cap n : Nat) : Nat :=
  if cap >>> 4 < n ∨ intMax < n then min (cap >>> 4) intMax else n

/-- Whether store_record takes the truncation branch, which also prints
the warning printk, hence one degradation notice per such append. -/
def pathTruncated (cap n : Nat) : Bool :=
  decide (cap >>> 4 < n ∨ intMax < n)

/-- Alignment padding applied by record_size += (- record_size) and
(LOG_ALIGN - 1): the distance from n up to the next multiple of 8. -/
def alignPad (n : Nat) : Nat := (logAlign - n % logAlign) % logAlign

/-- record_size as computed on lines 105 and 106:
sizeof(struct netlog_log) + path_len + 1, padded to LOG_ALIGN, as a
function of the capacity and of the original strlen of the path. -/
def recSize (cap n : Nat) : Nat :=
  netlogLogSize + pathLenOf cap n + 1 +
    alignPad (netlogLogSize + pathLenOf cap n + 1)

/-- next_record (lines 58 to 68): read the size_t at idx; the value
zero is the wraparound sentinel and yields offset 0, otherwise the
offset advances by the stored length. -/
def next_record (buf : Nat → Nat) (idx : Nat) : Nat :=
  if buf idx = 0 then 0 else idx + buf idx

/-- Free space ahead of log_next_idx as computed by store_record on
lines 112 to 116: if log_next_idx > log_first_idx it is
max (LOG_BUF_LEN - log_next_idx) log_first_idx, else it is
log_first_idx - log_next_idx. -/
def freeSpace (cap fidx nidx : Nat) : Nat :=
  if fidx < nidx then max (cap - nidx) fidx else fidx - nidx

/-- Eviction loop of store_record (lines 109 to 123), with explicit
fuel.  The C loop guard is log_first_seq < log_next_seq and every
iteration increments log_first_seq while log_next_seq is unchanged, so
the loop runs at most next_seq - first_seq times; evictLoop below
passes exactly that fuel, which therefore never runs out while the
guard still holds.  An iteration first computes the free space, breaks
when free > record_size + sizeof(size_t), and otherwise advances
log_first_idx through next_record and increments log_first_seq. -/
def evictGo (cap rs : Nat) (buf : Nat → Nat) (nseq nidx : Nat) :
    Nat → Nat → Nat → Nat × Nat
  | 0, fseq, fidx => (fseq, fidx)
  | fuel + 1, fseq, fidx =>
    if fseq < nseq then
      if rs + szt < freeSpace cap fidx nidx then (fseq, fidx)
      else evictGo cap rs buf nseq nidx fuel (fseq + 1) (next_record buf fidx)
    else (fseq, fidx)

/-- The eviction loop of store_record: see evictGo. -/
def evictLoop (cap rs : Nat) (buf : Nat → Nat) (nseq nidx fseq fidx : Nat) :
    Nat × Nat :=
  evictGo cap rs buf nseq nidx (nseq - fseq) fseq fidx

/-- Eviction loop as claim C1 words it: evict exactly as long as the
free space is strictly smaller than record_size + sizeof(size_t), and
stop as soon as the free space is no longer smaller than that bound.
This definition follows the words of the claim, for comparison with
evictGo which follows the source. -/
def evictGoClaim (cap rs : Nat) (buf : Nat → Nat) (nseq nidx : Nat) :
    Nat → Nat → Nat → Nat × Nat
  | 0, fseq, fidx => (fseq, fidx)
  | fuel + 1, fseq, fidx =>
    if fseq < nseq then
      if freeSpace cap fidx nidx < rs + szt then
        evictGoClaim cap rs buf nseq nidx fuel (fseq + 1) (next_record buf fidx)
      else (fseq, fidx)
    else (fseq, fidx)

/-- The eviction loop as claim C1 words it: see evictGoClaim. -/
def evictLoopClaim (cap rs : Nat) (buf : Nat → Nat) (nseq nidx fseq fidx : Nat) :
    Nat × Nat :=
  evictGoClaim cap rs buf nseq nidx (nseq - fseq) fseq fidx

/-- Eviction loop as the amended claim words it: evict while live
records exist and the free space is no larger than
record_size + sizeof(size_t); stop as soon as it strictly exceeds that
bound.  This definition follows the words of the amended claim, for
comparison with evictGo which follows the source. -/
def evictGoAmended (cap rs : Nat) (buf : Nat → Nat) (nseq nidx : Nat) :
    Nat → Nat → Nat → Nat × Nat
  | 0, fseq, fidx => (fseq, fidx)
  | fuel + 1, fseq, fidx =>
    if fseq < nseq ∧ freeSpace cap fidx nidx ≤ rs + szt then
      evictGoAmended cap rs buf nseq nidx fuel (fseq + 1) (next_record buf fidx)
    else (fseq, fidx)

/-- The eviction loop as the amended claim C1 words it: see
evictGoAmended. -/
def evictLoopAmended (cap rs : Nat) (buf : Nat → Nat) (nseq nidx fseq fidx : Nat) :
    Nat × Nat :=
  evictGoAmended cap rs buf nseq nidx (nseq - fseq) fseq fidx

/-- Write position of the new record: log_next_idx, or 0 after the
wraparound branch (lines 125 to 135) whose condition is
log_next_idx + record_size + sizeof(size_t) >= LOG_BUF_LEN. -/
def writeIdx (cap rs nidx : Nat) : Nat :=
  if cap ≤ nidx + rs + szt then 0 else nidx

/-- Result of one append: the new global state plus two ghost
observations, the path bytes stored by memcpy and whether the
truncation warning was printed during this append. -/
structure StoreOut where
  state : LogState
  storedPath : List Nat
  truncNotice : Bool

/-- store_record (lines 86 to 171).  In source order: compute the
possibly truncated path_len and the aligned record_size; run the
eviction loop; if log_next_idx + record_size + sizeof(size_t) reaches
LOG_BUF_LEN, store a zero size_t sentinel at log_next_idx and reset the
write position to 0; store the record header (its len field is the only
field any index computation ever reads) at the write position and copy
path_len bytes of the path; advance log_next_idx by record_size and
increment log_next_seq.  The function is total: the writer never blocks
and never fails. -/
def store_record (cap : Nat) (path : List Nat) (s : LogState) : StoreOut :=
  let pl := pathLenOf cap path.length
  let rs := recSize cap path.length
  let fp := evictLoop cap rs s.buf s.next_seq s.next_idx s.first_seq s.first_idx
  let buf1 := if cap ≤ s.next_idx + rs + szt then bufWrite s.buf s.next_idx 0
              else s.buf
  let w := writeIdx cap rs s.next_idx
  let buf2 := bufWrite buf1 w rs
  { state := { buf := buf2, first_seq := fp.1, first_idx := fp.2,
               next_seq := s.next_seq + 1, next_idx := w + rs },
    storedPath := path.take pl,
    truncNotice := pathTruncated cap path.length }

/-- Fold store_record over a list of paths, starting from a given
state: the reachable states of the store are appendAll of some path
list over initState. -/
def appendAll (cap : Nat) (paths : List (List Nat)) (s : LogState) : LogState :=
  paths.foldl (fun t p => (store_record cap p t).state) s

/-- Per reader cursor, struct user_data fields log_curr_seq and
log_curr_idx. -/
structure Cursor where
  seq : Nat
  idx : Nat
deriving DecidableEq

/-- Outcome of one netlog_log_read call.  wouldBlock is the
EAGAIN branch for a nonblocking caller, and also the state in which a
blocking caller waits; dataLost is EPIPE; bufferTooSmall is the EINVAL
returned when the rendered length exceeds the user count. -/
inductive ReadResult where
  | wouldBlock : ReadResult
  | dataLost : ReadResult
  | bufferTooSmall : ReadResult
  | ok : Nat → ReadResult
deriving DecidableEq

/-- Result of one netlog_log_read call: the outcome, the cursor the
session holds afterwards, the offset at which the call decoded a
FramedRecord if it reached the rendering code, and the global store
state afterwards (the read path never writes any of the log_ globals,
so it is returned unchanged by construction). -/
structure ReadOut where
  res : ReadResult
  cursor : Cursor
  decodedAt : Option Nat
  store : LogState

/-- netlog_log_read (lines 228 to 378), for a session holding cursor c
and a user buffer of count bytes.  Branches in source order: while
log_curr_seq equals log_next_seq the caller waits or gets EAGAIN; if
log_curr_seq < log_first_seq the cursor is reset to the first record
and EPIPE is returned; otherwise the record is decoded at
log_curr_idx itself (the source takes log_buf + data->log_curr_idx with
no sentinel check), the line is rendered, the cursor is advanced to
(seq + 1, next_record idx) and only then is the rendered length
compared with count, EINVAL being returned when it is larger.  The
renderLen parameter abstracts the sprintf cascade: the length of the
line rendered from the bytes at the decode offset. -/
def netlog_log_read (s : LogState) (renderLen : Nat → Nat) (c : Cursor)
    (count : Nat) : ReadOut :=
  if c.seq = s.next_seq then
    { res := .wouldBlock, cursor := c, decodedAt := none, store := s }
  else if c.seq < s.first_seq then
    { res := .dataLost, cursor := { seq := s.first_seq, idx := s.first_idx },
      decodedAt := none, store := s }
  else
    let len := renderLen c.idx
    let c2 : Cursor := { seq := c.seq + 1, idx := next_record s.buf c.idx }
    if count < len then
      { res := .bufferTooSmall, cursor := c2, decodedAt := some c.idx,
        store := s }
    else
      { res := .ok len, cursor := c2, decodedAt := some c.idx, store := s }

/-- netlog_log_llseek (lines 181 to 213).  A nonzero offset is refused
with ESPIPE (minus 29) before the whence switch; whence 0 (SEEK_SET)
repositions to the oldest record, whence 1 (SEEK_CUR) is accepted as a
no-op, whence 2 (SEEK_END) repositions to the next write position, and
any other whence yields EINVAL (minus 22).  Successful calls return 0. -/
def netlog_log_llseek (s : LogState) (c : Cursor) (offset : Int)
    (whence : Nat) : Int × Cursor :=
  if offset ≠ 0 then ((-29 : Int), c)
  else
    match whence with
    | 0 => (0, { seq := s.first_seq, idx := s.first_idx })
    | 1 => (0, c)
    | 2 => (0, { seq := s.next_seq, idx := s.next_idx })
    | _ => ((-22 : Int), c)

/-- netlog_log_open (lines 417 to 444): the new session cursor is
seeded from log_first_seq and log_first_idx when the global first_read
flag is still set, clearing the flag, and from log_next_seq and
log_next_idx otherwise.  The pair returned is the seeded cursor and the
new value of first_read. -/
def netlog_log_open (s : LogState) (first_read : Bool) : Cursor × Bool :=
  if first_read then ({ seq := s.first_seq, idx := s.first_idx }, false)
  else ({ seq := s.next_seq, idx := s.next_idx }, false)

/-- netlog_log_release (lines 446 to 456) frees the session data and
does not touch the first_read flag, which the function returns
unchanged. -/
def netlog_log_release (first_read : Bool) : Bool :=
  first_read

/-- Number of FramedRecords stored in the arena between offset i and
offset e, following length headers and the wraparound sentinel exactly
as next_record does; none when the walk does not reach e within fuel
steps.  A sentinel hop consumes no record. -/
def chainCount (buf : Nat → Nat) : Nat → Nat → Nat → Option Nat
  | 0, _, _ => none
  | fuel + 1, i, e =>
    if i = e then some 0
    else if buf i = 0 then chainCount buf fuel 0 e
    else (chainCount buf fuel (i + buf i) e).map (fun k => k + 1)

/-- A seven byte path: its framed record occupies
80 + 7 + 1 = 88 bytes, already a multiple of 8. -/
def path7 : List Nat := List.replicate 7 0

/-- A 160 byte path, ten times the truncation threshold 16 of a
256 byte arena. -/
def path160 : List Nat := List.replicate 160 0

/-- Arena contents for the claim C1 counterexample: one record of
length 80 stored at offset 96. -/
def cexBuf : Nat → Nat :=
  fun i => if i = 96 then 80 else 0

/-- Store state reached from the empty store by three appends of seven
byte paths into a 256 byte arena.  The third append wraps: it stores
the sentinel at offset 176 and the record of sequence number 2 at
offset 0, and leaves log_first_seq = 2 with log_first_idx = 176, the
offset of the sentinel. -/
def s3ex : LogState := appendAll 256 [path7, path7, path7] initState

/-- Store state reached from the empty store by four appends of seven
byte paths into a 256 byte arena. -/
def s4ex : LogState := appendAll 256 [path7, path7, path7, path7] initState

/-- Store state reached from the empty store by two appends of seven
byte paths into a 272 byte arena: two 88 byte records at offsets 0 and
88, log_next_idx = 176, tail segment of 96 bytes. -/
def s272ex : LogState := appendAll 272 [path7, path7] initState

/-- A render length function for concrete read scenarios: every line
renders to 50 bytes. -/
def rlex : Nat → Nat := fun _ => 50

/-- The source eviction loop equals the loop of the amended claim C1:
evict while live records exist and the free space is at most
record_size + sizeof(size_t). -/
theorem evictGo_eq_amended (cap rs : Nat) (buf : Nat → Nat) (nseq nidx : Nat) :
    ∀ fuel fseq fidx,
      evictGo cap rs buf nseq nidx fuel fseq fidx =
        evictGoAmended cap rs buf nseq nidx fuel fseq fidx := by
  intro fuel
  induction fuel with
  | zero => intro fseq fidx; rfl
  | succ n ih =>
    intro fseq fidx
    by_cases h1 : fseq < nseq
    · by_cases h2 : rs + szt < freeSpace cap fidx nidx
      · have h4 : ¬ (freeSpace cap fidx nidx ≤ rs + szt) := by omega
        simp [evictGo, evictGoAmended, h1, h2, h4]
      · have h4 : freeSpace cap fidx nidx ≤ rs + szt := by omega
        simp [evictGo, evictGoAmended, h1, h2, h4, ih]
    · have h3 : ¬ (fseq < nseq ∧ freeSpace cap fidx nidx ≤ rs + szt) := by
        omega
      simp [evictGo, evictGoAmended, h1, h3]

/-- When the eviction loop stops, either every live record has been
evicted or the free space strictly exceeds
record_size + sizeof(size_t). -/
theorem evictGo_stop (cap rs : Nat) (buf : Nat → Nat) (nseq nidx : Nat) :
    ∀ fuel fseq fidx, fseq ≤ nseq → nseq - fseq ≤ fuel →
      (evictGo cap rs buf nseq nidx fuel fseq fidx).1 = nseq ∨
        rs + szt <
          freeSpace cap (evictGo cap rs buf nseq nidx fuel fseq fidx).2 nidx := by
  intro fuel
  induction fuel with
  | zero =>
    intro fseq fidx h1 h2
    have h3 : fseq = nseq := by omega
    subst h3
    left
    rfl
  | succ n ih =>
    intro fseq fidx h1 h2
    by_cases h3 : fseq < nseq
    · by_cases h4 : rs + szt < freeSpace cap fidx nidx
      · simp [evictGo, h3, h4]
      · have h5 := ih (fseq + 1) (next_record buf fidx) (by omega) (by omega)
        simpa [evictGo, h3, h4] using h5
    · have h6 : fseq = nseq := by omega
      subst h6
      simp [evictGo, h3]

/-- C1, corrected.  The eviction loop of store_record advances
first_offset and first_seq exactly as long as live records exist and
the contiguous free space ahead of next_offset, computed as
max (capacity - next_offset) first_offset when next_offset beats
first_offset and as first_offset - next_offset otherwise, is no larger
than record_size + sizeof(size_t); it stops as soon as the free space
strictly exceeds that bound (the claim said it already stops at
equality).  When it stops, either no live record is left or the bound
is strictly exceeded.  Eviction is the only reclamation and the append
is a total function that always advances next_seq by one: it never
blocks and always succeeds. -/
theorem claim1_amended (cap rs : Nat) (buf : Nat → Nat)
    (nseq nidx fseq fidx : Nat) (path : List Nat) (s : LogState)
    (h : fseq ≤ nseq) :
    evictLoop cap rs buf nseq nidx fseq fidx =
      evictLoopAmended cap rs buf nseq nidx fseq fidx ∧
    ((evictLoop cap rs buf nseq nidx fseq fidx).1 = nseq ∨
      rs + szt <
        freeSpace cap (evictLoop cap rs buf nseq nidx fseq fidx).2 nidx) ∧
    (store_record cap path s).state.next_seq = s.next_seq + 1 :=
  ⟨evictGo_eq_amended cap rs buf nseq nidx (nseq - fseq) fseq fidx,
   evictGo_stop cap rs buf nseq nidx (nseq - fseq) fseq fidx h (Nat.le_refl _),
   rfl⟩

/-- Witness for claim1_amended: the concrete instance cap 256, rs 88,
all zero arena, nseq 1, nidx 0, fseq 0, fidx 0, empty path, initial
state. -/
theorem claim1_amended_w :
    evictLoop 256 88 (fun _ => 0) 1 0 0 0 =
      evictLoopAmended 256 88 (fun _ => 0) 1 0 0 0 ∧
    ((evictLoop 256 88 (fun _ => 0) 1 0 0 0).1 = 1 ∨
      88 + szt < freeSpace 256 (evictLoop 256 88 (fun _ => 0) 1 0 0 0).2 0) ∧
    (store_record 256 [] initState).state.next_seq = initState.next_seq + 1 :=
  claim1_amended 256 88 (fun _ => 0) 1 0 0 0 [] initState (by decide)

/-- C1 counterexample.  The claim says the loop stops as soon as the
free space is no longer smaller than record_size + sizeof(size_t), so
at free space exactly equal to the bound it would stop; the source
keeps evicting in that case.  Concretely with cap 256, rs 88, one
record of length 80 at offset 96, nseq 2, nidx 0, fseq 0, fidx 96 the
free space is 96 - 0 = 96 = 88 + 8: the source loop evicts once and
returns (1, 176) while the loop written from the words of the claim
returns (0, 96). -/
theorem claim1_cex :
    evictLoop 256 88 cexBuf 2 0 0 96 ≠ evictLoopClaim 256 88 cexBuf 2 0 0 96 := by
  decide

/-- C2, corrected.  An append stores the zero size_t sentinel at the
old next_offset and resets the write position to 0 exactly when
next_offset + record_size + sizeof(size_t) reaches the capacity, that
is, when the tail segment cannot also hold the reserved sentinel room
(even if record_size alone would still fit, which the claim denied);
after such a wrap the new record is stored at offset 0, next_offset
becomes record_size, and next_record maps the old next_offset to 0, so
cursor advancement continues at offset 0.  When the condition fails no
sentinel is stored and the record goes to the old next_offset.  The
separation hypothesis mirrors at the byte level that the record stored
at offset 0 ends before the sentinel it would otherwise overwrite. -/
theorem claim2_amended (cap : Nat) (path : List Nat) (s : LogState)
    (h0 : 0 < s.next_idx)
    (_hsep : recSize cap path.length ≤ s.next_idx) :
    (cap ≤ s.next_idx + recSize cap path.length + szt →
      (store_record cap path s).state.buf s.next_idx = 0 ∧
      (store_record cap path s).state.buf 0 = recSize cap path.length ∧
      (store_record cap path s).state.next_idx = recSize cap path.length ∧
      next_record (store_record cap path s).state.buf s.next_idx = 0) ∧
    (s.next_idx + recSize cap path.length + szt < cap →
      (store_record cap path s).state.next_idx =
        s.next_idx + recSize cap path.length ∧
      (store_record cap path s).state.buf s.next_idx =
        recSize cap path.length) := by
  constructor
  · intro hw
    have hn0 : ¬ (s.next_idx = 0) := by omega
    refine ⟨?_, ?_, ?_, ?_⟩ <;>
      simp [store_record, writeIdx, bufWrite, next_record, hw, hn0]
  · intro hnw
    have hw : ¬ (cap ≤ s.next_idx + recSize cap path.length + szt) := by omega
    refine ⟨?_, ?_⟩ <;>
      simp [store_record, writeIdx, bufWrite, hw]

/-- Witness for claim2_amended: the 272 byte arena after two appends of
seven byte paths has next_idx 176 and a 96 byte tail; appending a third
seven byte path (record size 88) satisfies the wrap condition
272 <= 176 + 88 + 8 and produces the sentinel at 176, the record at 0
and next_idx 88. -/
theorem claim2_amended_w :
    272 ≤ s272ex.next_idx + recSize 272 path7.length + szt ∧
    ((store_record 272 path7 s272ex).state.buf s272ex.next_idx = 0 ∧
     (store_record 272 path7 s272ex).state.buf 0 = recSize 272 path7.length ∧
     (store_record 272 path7 s272ex).state.next_idx = recSize 272 path7.length ∧
     next_record (store_record 272 path7 s272ex).state.buf s272ex.next_idx = 0) :=
  ⟨by decide,
   (claim2_amended 272 path7 s272ex (by decide) (by decide)).1 (by decide)⟩

/-- C2 counterexample.  The claim says the sentinel is written exactly
when the tail segment cannot fit record_size even after evicting
everything.  In the 272 byte arena after two 88 byte records the tail
segment is 272 - 176 = 96 and the next record has size 88, so the tail
does fit record_size; yet the source wraps, because its condition also
reserves sizeof(size_t): the append stores the sentinel at the old
next_offset 176 and restarts at 0. -/
theorem claim2_cex :
    s272ex.next_idx = 176 ∧
    recSize 272 path7.length ≤ 272 - s272ex.next_idx ∧
    (store_record 272 path7 s272ex).state.buf 176 = 0 ∧
    (store_record 272 path7 s272ex).state.next_idx = 88 := by
  decide

/-- C3, code bug.  In the state s3ex reached by three appends into a
256 byte arena the third append wrapped, so offset 176 holds the
sentinel, the record of sequence number 2 is stored at offset 0 with
length 88, and a caught up reader holds cursor (2, 176).  The claim
and the specification require the read to follow the sentinel and
decode at offset 0, then advance to (3, 88).  The source takes
log_buf + log_curr_idx with no sentinel check, so the call decodes the
FramedRecord at offset 176, the sentinel itself, rendering garbage
bytes, and advances the cursor to (3, 0) through next_record, after
which sequence numbers and offsets stay misaligned by one record. -/
theorem claim3_bug :
    s3ex.first_seq = 2 ∧ s3ex.next_seq = 3 ∧
    s3ex.buf 176 = 0 ∧ s3ex.buf 0 = 88 ∧ s3ex.next_idx = 88 ∧
    (netlog_log_read s3ex rlex { seq := 2, idx := 176 } 4096).decodedAt =
      some 176 ∧
    (netlog_log_read s3ex rlex { seq := 2, idx := 176 } 4096).cursor =
      { seq := 3, idx := 0 } := by
  decide

/-- C4, corrected.  When the rendered line is larger than the caller
count, the read returns the buffer too small error and the shared
store is indeed unaffected, but the session cursor is not: the source
advances log_curr_idx and log_curr_seq before comparing the rendered
length with count, so on this error the cursor has already moved to
(seq + 1, next_record idx) and a retry with a larger buffer delivers
the following record; the oversized record is skipped, not
redelivered. -/
theorem claim4_amended (s : LogState) (renderLen : Nat → Nat) (c : Cursor)
    (count : Nat) (h1 : ¬ (c.seq = s.next_seq)) (h2 : s.first_seq ≤ c.seq)
    (h3 : count < renderLen c.idx) :
    netlog_log_read s renderLen c count =
      { res := .bufferTooSmall,
        cursor := { seq := c.seq + 1, idx := next_record s.buf c.idx },
        decodedAt := some c.idx, store := s } := by
  have h4 : ¬ (c.seq < s.first_seq) := by omega
  simp [netlog_log_read, h1, h4, h3]

/-- Witness for claim4_amended: one record in a 256 byte arena, a line
of 100 bytes and a 10 byte caller buffer. -/
theorem claim4_amended_w :
    netlog_log_read (appendAll 256 [path7] initState) (fun _ => 100)
        { seq := 0, idx := 0 } 10 =
      { res := .bufferTooSmall,
        cursor := { seq := 1,
                    idx := next_record (appendAll 256 [path7] initState).buf 0 },
        decodedAt := some 0, store := appendAll 256 [path7] initState } :=
  claim4_amended (appendAll 256 [path7] initState) (fun _ => 100)
    { seq := 0, idx := 0 } 10 (by decide) (by decide) (by decide)

/-- C4 counterexample.  The claim says the session cursor is unaffected
by a buffer too small error, so retrying delivers the same record.  In
the store with one 88 byte record, reading with a 10 byte buffer while
every line renders to 100 bytes returns the error yet moves the cursor
from (0, 0) to (1, 88): the record is dropped for this session. -/
theorem claim4_cex :
    (netlog_log_read (appendAll 256 [path7] initState) (fun _ => 100)
        { seq := 0, idx := 0 } 10).res = ReadResult.bufferTooSmall ∧
    (netlog_log_read (appendAll 256 [path7] initState) (fun _ => 100)
        { seq := 0, idx := 0 } 10).cursor ≠ { seq := 0, idx := 0 } := by
  decide

/-- C5, code bug.  In the state s3ex reached by three ordinary appends
the third append wrapped, leaving first_seq 2 with first_idx 176
pointing at the wraparound sentinel while the live record of sequence
number 2 sits at offset 0.  A lagging reader at cursor (0, 0) receives
the data lost result exactly once with its cursor reset to
(first_seq, first_idx) = (2, 176), as the claim states; but the claim
further requires the subsequent reads to return valid records starting
at first_seq, and they do not: the very next read reports success yet
decodes at offset 176, the sentinel itself, rendering its bytes as a
bogus line, and advances to (3, 0), so the live record of sequence
number 2 stored at offset 0 is never delivered at its own sequence
number.  The source resynchronises log_curr_idx to log_first_idx
(lines 263 to 271) and then decodes log_buf + log_curr_idx with no
sentinel check, the same next_record slip as in C3 and C6. -/
theorem claim5_bug :
    s3ex.first_seq = 2 ∧ s3ex.next_seq = 3 ∧ s3ex.first_idx = 176 ∧
    s3ex.buf 176 = 0 ∧ s3ex.buf 0 = 88 ∧
    (netlog_log_read s3ex rlex { seq := 0, idx := 0 } 4096).res =
      ReadResult.dataLost ∧
    (netlog_log_read s3ex rlex { seq := 0, idx := 0 } 4096).cursor =
      { seq := 2, idx := 176 } ∧
    (netlog_log_read s3ex rlex { seq := 2, idx := 176 } 4096).res =
      ReadResult.ok (rlex 176) ∧
    (netlog_log_read s3ex rlex { seq := 2, idx := 176 } 4096).decodedAt =
      some 176 ∧
    (netlog_log_read s3ex rlex { seq := 2, idx := 176 } 4096).cursor =
      { seq := 3, idx := 0 } := by
  decide

/-- C6, code bug.  The claim states the invariant that
next_seq - first_seq equals the number of live records between
first_offset and next_offset.  In the state s4ex reached from the
empty 256 byte store by four appends of seven byte paths,
first_seq = 3 and next_seq = 4, so the difference is 1, yet the arena
walk from first_idx = 0 to next_idx = 176 passes two FramedRecords (at
offsets 0 and 88).  The cause: during the fourth append the eviction
loop hit the sentinel left at offset 176, and next_record consumes the
sentinel without consuming a record while first_seq is still
incremented, desynchronising the pair. -/
theorem claim6_bug :
    s4ex.first_seq = 3 ∧ s4ex.next_seq = 4 ∧
    s4ex.first_idx = 0 ∧ s4ex.next_idx = 176 ∧
    s4ex.next_seq - s4ex.first_seq = 1 ∧
    chainCount s4ex.buf 256 s4ex.first_idx s4ex.next_idx = some 2 := by
  decide

/-- C7, confirmed.  The very first session ever opened against the
store is seeded to (first_seq, first_idx) and clears the global
first_read flag; every session opened once the flag is clear is seeded
to (next_seq, next_idx), and closing a session never restores the
flag, so this covers every later session, including the ones opened
after the first session closes. -/
theorem claim7_open (s t : LogState) :
    netlog_log_open s true =
      ({ seq := s.first_seq, idx := s.first_idx }, false) ∧
    netlog_log_open t false =
      ({ seq := t.next_seq, idx := t.next_idx }, false) ∧
    (∀ b : Bool, netlog_log_release b = b) :=
  ⟨rfl, rfl, fun _ => rfl⟩

/-- C8, corrected.  Under the store lock, seek to Oldest (whence
SEEK_SET, offset 0) repositions the cursor to (first_seq, first_idx)
and seek to Newest (whence SEEK_END, offset 0) to
(next_seq, next_idx); any nonzero offset fails with ESPIPE and any
whence beyond the three standard ones fails with EINVAL.  But contrary
to the claim these are not the only two requests that succeed: whence
SEEK_CUR with offset 0 also succeeds as a no-op, so a call succeeds
exactly when the offset is 0 and the whence is one of the three. -/
theorem claim8_amended (s : LogState) (c : Cursor) (offset : Int)
    (whence : Nat) :
    (offset ≠ 0 → netlog_log_llseek s c offset whence = ((-29 : Int), c)) ∧
    (offset = 0 → whence = 0 →
      netlog_log_llseek s c offset whence =
        (0, { seq := s.first_seq, idx := s.first_idx })) ∧
    (offset = 0 → whence = 1 →
      netlog_log_llseek s c offset whence = (0, c)) ∧
    (offset = 0 → whence = 2 →
      netlog_log_llseek s c offset whence =
        (0, { seq := s.next_seq, idx := s.next_idx })) ∧
    (offset = 0 → 3 ≤ whence →
      netlog_log_llseek s c offset whence = ((-22 : Int), c)) ∧
    ((netlog_log_llseek s c offset whence).1 = 0 ↔
      offset = 0 ∧ whence ≤ 2) := by
  refine ⟨?_, ?_, ?_, ?_, ?_, ?_⟩
  · intro h
    simp [netlog_log_llseek, h]
  · intro h hw
    subst h; subst hw
    simp [netlog_log_llseek]
  · intro h hw
    subst h; subst hw
    simp [netlog_log_llseek]
  · intro h hw
    subst h; subst hw
    simp [netlog_log_llseek]
  · intro h hw
    subst h
    match whence, hw with
    | n + 3, _ => simp [netlog_log_llseek]
  · by_cases h : offset = 0
    · subst h
      match whence with
      | 0 => simp [netlog_log_llseek]
      | 1 => simp [netlog_log_llseek]
      | 2 => simp [netlog_log_llseek]
      | n + 3 =>
        simp only [netlog_log_llseek]
        norm_num
    · simp only [netlog_log_llseek, if_pos h]
      constructor
      · intro hz
        exact absurd hz (by norm_num)
      · intro hz
        exact absurd hz.1 h

/-- Witness for claim8_amended: with the initial store and cursor
(5, 7), seek with offset 0 and whence SEEK_CUR succeeds without
moving the cursor, and a nonzero offset fails with ESPIPE. -/
theorem claim8_amended_w :
    netlog_log_llseek initState { seq := 5, idx := 7 } 0 1 =
      (0, { seq := 5, idx := 7 }) ∧
    netlog_log_llseek initState { seq := 5, idx := 7 } 3 0 =
      ((-29 : Int), { seq := 5, idx := 7 }) :=
  ⟨(claim8_amended initState { seq := 5, idx := 7 } 0 1).2.2.1 rfl rfl,
   (claim8_amended initState { seq := 5, idx := 7 } 3 0).1 (by decide)⟩

/-- C8 counterexample.  The claim says any seek target other than
Oldest (SEEK_SET) and Newest (SEEK_END) fails.  A seek with offset 0
and whence SEEK_CUR, which is neither of the two targets, returns 0
(success) and leaves the cursor where it was. -/
theorem claim8_cex :
    (netlog_log_llseek initState { seq := 5, idx := 7 } 0 1).1 = 0 ∧
    (netlog_log_llseek initState { seq := 5, idx := 7 } 0 1).2 =
      { seq := 5, idx := 7 } ∧
    ¬ ((1 : Nat) = 0 ∨ (1 : Nat) = 2) := by
  decide

/-- C9, confirmed.  When the supplied path is longer than the
truncation threshold LOG_BUF_LEN >> 4 (one sixteenth of the capacity),
the stored path is its prefix of exactly the threshold length and the
truncation warning is printed exactly once for that append, which
still succeeds; a path within the threshold is stored verbatim with
no warning.  The hypothesis that the threshold is at most INT_MAX
holds for every real capacity. -/
theorem claim9_trunc (cap : Nat) (path : List Nat) (s : LogState)
    (h : cap >>> 4 ≤ intMax) :
    (cap >>> 4 < path.length →
      (store_record cap path s).storedPath = path.take (cap >>> 4) ∧
      (store_record cap path s).storedPath.length = cap >>> 4 ∧
      (store_record cap path s).truncNotice = true ∧
      (store_record cap path s).state.next_seq = s.next_seq + 1) ∧
    (path.length ≤ cap >>> 4 →
      (store_record cap path s).storedPath = path ∧
      (store_record cap path s).truncNotice = false ∧
      (store_record cap path s).state.next_seq = s.next_seq + 1) := by
  constructor
  · intro hl
    have hpl : pathLenOf cap path.length = cap >>> 4 := by
      unfold pathLenOf
      rw [if_pos (Or.inl hl)]
      exact Nat.min_eq_left h
    have hsp : (store_record cap path s).storedPath =
        path.take (pathLenOf cap path.length) := by
      simp only [store_record]
    refine ⟨?_, ?_, ?_, rfl⟩
    · rw [hsp, hpl]
    · rw [hsp, hpl, List.length_take]
      omega
    · have : pathTruncated cap path.length = true := by
        simp [pathTruncated]
        exact Or.inl hl
      exact this
  · intro hl
    have hc : ¬ (cap >>> 4 < path.length ∨ intMax < path.length) := by
      rintro (x | x) <;> omega
    have hpl : pathLenOf cap path.length = path.length := by
      unfold pathLenOf
      rw [if_neg hc]
    have hsp : (store_record cap path s).storedPath =
        path.take (pathLenOf cap path.length) := by
      simp only [store_record]
    refine ⟨?_, ?_, rfl⟩
    · rw [hsp, hpl, List.take_length]
    · have : pathTruncated cap path.length = false := by
        simp [pathTruncated]
        omega
      exact this

/-- Witness for claim9_trunc: the 256 byte arena has threshold 16 and
the 160 byte path of the specification scenario is ten times longer;
the stored path is the 16 byte prefix, the notice fires once, and the
append succeeds. -/
theorem claim9_trunc_w :
    256 >>> 4 ≤ intMax ∧ 256 >>> 4 < path160.length ∧
    ((store_record 256 path160 initState).storedPath =
        path160.take (256 >>> 4) ∧
     (store_record 256 path160 initState).storedPath.length = 256 >>> 4 ∧
     (store_record 256 path160 initState).truncNotice = true ∧
     (store_record 256 path160 initState).state.next_seq =
        initState.next_seq + 1) :=
  ⟨by decide, by decide,
   (claim9_trunc 256 path160 initState (by decide)).1 (by decide)⟩

/-- The stored path length never exceeds the truncation threshold. -/
theorem pathLenOf_le (cap n : Nat) : pathLenOf cap n ≤ cap >>> 4 := by
  unfold pathLenOf
  split
  · exact Nat.min_le_left _ _
  · omega

/-- For a capacity of at least 128 bytes, every record size leaves room
for a trailing sentinel inside the arena. -/
theorem recSize_bound (cap n : Nat) (h : 128 ≤ cap) :
    recSize cap n + szt ≤ cap := by
  have h1 : pathLenOf cap n ≤ cap >>> 4 := pathLenOf_le cap n
  have h2 : cap >>> 4 = cap / 16 := by
    rw [Nat.shiftRight_eq_div_pow]
  have h3 : alignPad (80 + pathLenOf cap n + 1) < 8 := by
    simp only [alignPad, logAlign]
    omega
  rw [h2] at h1
  simp only [recSize, szt, netlogLogSize]
  omega

/-- One append establishes the headroom invariant
next_idx + sizeof(size_t) <= capacity, whatever the previous write
position was. -/
theorem store_nextIdx_bound (cap : Nat) (p : List Nat) (s : LogState)
    (hcap : 128 ≤ cap) :
    (store_record cap p s).state.next_idx + szt ≤ cap := by
  have hb := recSize_bound cap p.length hcap
  have he : (store_record cap p s).state.next_idx =
      writeIdx cap (recSize cap p.length) s.next_idx +
        recSize cap p.length := rfl
  rw [he]
  unfold writeIdx
  by_cases hw : cap ≤ s.next_idx + recSize cap p.length + szt
  · rw [if_pos hw]
    omega
  · rw [if_neg hw]
    omega

/-- Every state reachable by appends from a state with tail headroom
keeps the headroom next_idx + sizeof(size_t) <= capacity. -/
theorem appendAll_nextIdx_bound (cap : Nat) (paths : List (List Nat))
    (hcap : 128 ≤ cap) :
    ∀ s : LogState, s.next_idx + szt ≤ cap →
      (appendAll cap paths s).next_idx + szt ≤ cap := by
  induction paths with
  | nil => intro s hs; exact hs
  | cons p ps ih =>
    intro s _
    exact ih (store_record cap p s).state (store_nextIdx_bound cap p s hcap)

/-- C10, confirmed.  In every state reachable from the empty store by
appends into an arena of at least 128 bytes, next_idx + sizeof(size_t)
stays within the capacity, so the sentinel that a wrapping append
stores at log_next_idx lies inside the arena; the record size always
fits the arena; and the framed record of the next append is written
entirely inside the arena, at writeIdx (0 after a wrap, next_idx
otherwise) through writeIdx + record_size. -/
theorem claim10_bounds (cap : Nat) (paths : List (List Nat))
    (path : List Nat) (hcap : 128 ≤ cap) :
    (appendAll cap paths initState).next_idx + szt ≤ cap ∧
    recSize cap path.length ≤ cap ∧
    writeIdx cap (recSize cap path.length)
        (appendAll cap paths initState).next_idx +
      recSize cap path.length ≤ cap := by
  have h0 : initState.next_idx + szt ≤ cap := by
    simp only [initState, szt]
    omega
  have h1 := appendAll_nextIdx_bound cap paths hcap initState h0
  have h2 := recSize_bound cap path.length hcap
  refine ⟨h1, by omega, ?_⟩
  unfold writeIdx
  by_cases hw : cap ≤ (appendAll cap paths initState).next_idx +
      recSize cap path.length + szt
  · rw [if_pos hw]
    omega
  · rw [if_neg hw]
    omega

/-- Witness for claim10_bounds: the 256 byte arena after the three
appends that include a wrapping one. -/
theorem claim10_bounds_w :
    (appendAll 256 [path7, path7, path7] initState).next_idx + szt ≤ 256 ∧
    recSize 256 path7.length ≤ 256 ∧
    writeIdx 256 (recSize 256 path7.length)
        (appendAll 256 [path7, path7, path7] initState).next_idx +
      recSize 256 path7.length ≤ 256 :=
  claim10_bounds 256 [path7, path7, path7] path7 (by decide)

end Netlog
